import Mathlib

/-!
Verification of the per-frame control loop of the Rome world demo
(`src/rome.js`): fixed-step physics driver, wall-slide adjuster, ground
probe, jump handler, camera synchronizer and debug-view toggle.

Numbers are modelled as exact rationals (`ℚ`); the JavaScript source uses
IEEE doubles, but every claim here is about the algorithm, and all source
constants are short decimal literals that we carry exactly.  External
engine queries (Rapier ray casts, `world.step()`) are opaque to the loop:
a ray-cast result is a parameter of each embedded function, and a physics
tick is modelled only by its count.
-/

namespace Rome

/-- 3-vector over `ℚ`, mirroring `THREE.Vector3` as used by the loop. -/
structure Vec3 where
  x : ℚ
  y : ℚ
  z : ℚ
deriving DecidableEq, Repr

namespace Vec3

/-- `v.lengthSq()` of `THREE.Vector3`. -/
def lengthSq (v : Vec3) : ℚ := v.x * v.x + v.y * v.y + v.z * v.z

/-- `a.dot(b)` of `THREE.Vector3`. -/
def dot (a b : Vec3) : ℚ := a.x * b.x + a.y * b.y + a.z * b.z

/-- Componentwise subtraction. -/
def sub (a b : Vec3) : Vec3 := ⟨a.x - b.x, a.y - b.y, a.z - b.z⟩

/-- Scalar multiple. -/
def smul (c : ℚ) (v : Vec3) : Vec3 := ⟨c * v.x, c * v.y, c * v.z⟩

/-- Squared magnitude of the horizontal (x,z) part of a vector. -/
def horizSq (v : Vec3) : ℚ := v.x * v.x + v.z * v.z

end Vec3

/-! ### Configuration constants (`src/rome.js`, lines 29–53 and 115–117) -/

/-- `const GLOBAL_SCALE = 0.7`. -/
def GLOBAL_SCALE : ℚ := 7/10

/-- `const PLAYER_RADIUS = 0.1 * GLOBAL_SCALE`. -/
def PLAYER_RADIUS : ℚ := (1/10) * GLOBAL_SCALE

/-- `const PLAYER_HALF_HEIGHT = 0.5 * GLOBAL_SCALE`. -/
def PLAYER_HALF_HEIGHT : ℚ := (1/2) * GLOBAL_SCALE

/-- `const PLAYER_EYE_HEIGHT = 1.0 * GLOBAL_SCALE`. -/
def PLAYER_EYE_HEIGHT : ℚ := 1 * GLOBAL_SCALE

/-- `const PLAYER_JUMP_SPEED = 8.0 * GLOBAL_SCALE`. -/
def PLAYER_JUMP_SPEED : ℚ := 8 * GLOBAL_SCALE

/-- `const FIXED_TIME_STEP = 1 / 60`. -/
def FIXED_TIME_STEP : ℚ := 1/60

/-- `const MAX_SUBSTEPS = 5`. -/
def MAX_SUBSTEPS : ℕ := 5

/-! ### Fixed-step physics driver (`animate`, `src/rome.js` lines 440–458)

```js
const frameTime = Math.min((currentTime - previousTime) / 1000, 0.1);
physicsAccumulator += frameTime;
const steps = Math.min(Math.floor(physicsAccumulator / FIXED_TIME_STEP), MAX_SUBSTEPS);
for (let i = 0; i < steps; i++) {
  world.step();
  physicsAccumulator -= FIXED_TIME_STEP;
}
```

`elapsed` below is `(currentTime - previousTime) / 1000` in seconds.  When
`steps` is negative the `for` loop body never runs, which `Int.toNat`
captures. -/

/-- `Math.min(elapsed, 0.1)`: the frame-time clamp. -/
def frameTimeOf (elapsed : ℚ) : ℚ := min elapsed (1/10)

/-- Result of one animation frame's physics block: the accumulator left
over and the number of `world.step()` ticks that ran. -/
structure FrameResult where
  acc : ℚ
  ticks : ℕ
deriving DecidableEq, Repr

/-- The `for (let i = 0; i < steps; i++)` loop: each iteration subtracts
`FIXED_TIME_STEP` from the accumulator (the `world.step()` call is opaque
and tracked only by the iteration count). -/
def runSteps : ℕ → ℚ → ℚ
  | 0, a => a
  | n + 1, a => runSteps n (a - FIXED_TIME_STEP)

/-- One animation frame's physics processing: clamp the elapsed time, add
it to the accumulator, compute `steps = Math.min(Math.floor(acc / FIXED_TIME_STEP), MAX_SUBSTEPS)`
and run the subtraction loop that many times. -/
def animateFrame (acc elapsed : ℚ) : FrameResult :=
  let a := acc + frameTimeOf elapsed
  let steps := (min ⌊a / FIXED_TIME_STEP⌋ (MAX_SUBSTEPS : ℤ)).toNat
  { acc := runSteps steps a, ticks := steps }

/-- Accumulator after a whole sequence of frames, starting from
`physicsAccumulator = 0` as in the source. -/
def runFrames (elapsedTimes : List ℚ) : ℚ :=
  elapsedTimes.foldl (fun a e => (animateFrame a e).acc) 0

/-! ### Ray casts, ground probe and jump (`src/rome.js` lines 299–346)

`world.castRayAndGetNormal(ray, maxToi, solid)` is an external engine
query; its result is modelled as an optional hit carrying the
time-of-impact (`hit.toi`, the distance along the unit ray direction) and
an optional surface normal (`hit.normal`, which the source guards with
`hit.normal ? hit.normal.y : 1.0` and `hit?.normal`). -/

/-- A ray-cast hit, as consumed by the loop. -/
structure RayHit where
  toi : ℚ
  normal : Option Vec3
deriving DecidableEq, Repr

/-- `const footOffset = PLAYER_HALF_HEIGHT + PLAYER_RADIUS` from
`isPlayerGrounded`. -/
def footOffset : ℚ := PLAYER_HALF_HEIGHT + PLAYER_RADIUS

/-- Maximum ray distance passed to the downward cast:
`world.castRayAndGetNormal(ray, footOffset + 0.6, true)`. -/
def groundRayMaxDist : ℚ := footOffset + 6/10

/-- `isPlayerGrounded()`, parameterized by the downward ray-cast result
and the body's current vertical velocity `playerBody.linvel().y`:

```js
if (!hit) return false;
const normalY = hit.normal ? hit.normal.y : 1.0;
const nearGround = hit.toi <= footOffset + 0.12 && normalY > 0.3;
const vy = playerBody.linvel().y;
return nearGround && vy <= 0.6;
``` -/
def isPlayerGrounded (hit : Option RayHit) (vy : ℚ) : Bool :=
  match hit with
  | none => false
  | some h =>
    let normalY : ℚ := match h.normal with
      | some n => n.y
      | none => 1
    let nearGround := decide (h.toi ≤ footOffset + 12/100) && decide (normalY > 3/10)
    nearGround && decide (vy ≤ 6/10)

/-- The Space branch of the keydown handler, parameterized by the ground
probe's ray-cast result and the body's current velocity `v`:

```js
if (isPlayerGrounded()) {
  const v = playerBody.linvel();
  playerBody.setLinvel({ x: v.x, y: PLAYER_JUMP_SPEED, z: v.z }, true);
}
``` -/
def handleSpaceKey (hit : Option RayHit) (v : Vec3) : Vec3 :=
  if isPlayerGrounded hit v.y then ⟨v.x, PLAYER_JUMP_SPEED, v.z⟩ else v

/-! ### Wall-slide adjuster (`adjustVelocityForWalls`, lines 407–433) -/

/-- `const lookahead = PLAYER_RADIUS + 0.1`: ray distance of the forward
wall probe. -/
def wallLookahead : ℚ := PLAYER_RADIUS + 1/10

/-- `adjustVelocityForWalls(desiredVel)`, parameterized by the forward
ray cast's optional surface normal (`hit?.normal`).

The source normalizes `n` and then removes the into-wall component:
`n.normalize(); const vn = v.dot(n); if (vn > 0) v.addScaledVector(n, -vn)`.
With `n̂ = n / |n|` this is `v - (v·n̂)·n̂ = v - ((v·n) / |n|²)·n`, and
`v·n̂ > 0 ↔ v·n > 0` since `|n| > 0`; the embedding uses the right-hand
forms, which avoid the square root while being algebraically identical.
Likewise `len === 0` (with `len = horiz.length()`) holds iff
`horiz.lengthSq = 0`. -/
def adjustVelocityForWalls (desiredVel : Vec3) (rayNormal : Option Vec3) : Vec3 :=
  if desiredVel.lengthSq = 0 then desiredVel
  else
    let horiz : Vec3 := ⟨desiredVel.x, 0, desiredVel.z⟩
    if horiz.lengthSq = 0 then desiredVel
    else
      match rayNormal with
      | none => desiredVel
      | some normal =>
        let n : Vec3 := ⟨normal.x, 0, normal.z⟩
        if n.lengthSq > 1/10000 then
          let vn := desiredVel.dot n
          if vn > 0 then desiredVel.sub (Vec3.smul (vn / n.lengthSq) n)
          else desiredVel
        else desiredVel

/-! ### Camera synchronizer (`animate`, lines 461–465) -/

/-- Camera pose: position plus an orientation owned by the look
controller (modelled abstractly as Euler angles; the synchronizer never
touches it). -/
structure Camera where
  position : Vec3
  rotation : Vec3
deriving DecidableEq, Repr

/-- The camera-sync block of `animate`, given the player body translation:

```js
const p = playerBody.translation();
const feetY = p.y - (PLAYER_HALF_HEIGHT + PLAYER_RADIUS);
camera.position.set(p.x, feetY + PLAYER_EYE_HEIGHT, p.z);
``` -/
def syncCameraToBody (cam : Camera) (p : Vec3) : Camera :=
  let feetY := p.y - (PLAYER_HALF_HEIGHT + PLAYER_RADIUS)
  { cam with position := ⟨p.x, feetY + PLAYER_EYE_HEIGHT, p.z⟩ }

/-! ### Debug-view toggle (`toggleDebugMode` and the KeyM handler)

Observable state of the scene as far as the toggle logic touches it.
`splatMesh` is constructed before the keydown listener runs, so
`!splatMesh` in the guard is never taken; loading is tracked by
`splatsLoaded`.  The wireframe `environment` mesh is created lazily,
added to the scene once and never removed; only its `visible` flag is
toggled afterwards.  The splat mesh's `visible` flag is never written, so
it stays `true`; the splat mesh is added/removed from the scene instead.
`scene.add` on an object already in the scene is a no-op (Three.js
re-parents to the same parent). -/
structure AppState where
  debugMode : Bool
  splatsLoaded : Bool
  splatInScene : Bool
  envCreated : Bool
  envInScene : Bool
  envVisible : Bool
deriving DecidableEq, Repr, Fintype

/-- State after `init` sets up its locals: `debugMode = false`,
`splatsLoaded = false`, nothing in the scene, no wireframe yet. -/
def initState : AppState :=
  { debugMode := false, splatsLoaded := false, splatInScene := false,
    envCreated := false, envInScene := false, envVisible := false }

/-- `toggleDebugMode()`:

```js
if (!splatMesh || !splatsLoaded) return;
if (debugMode) {
  scene.remove(splatMesh);
  if (!environment) { ... environment = new THREE.Mesh(...); scene.add(environment); }
  environment.visible = true;
} else {
  if (environment) environment.visible = false;
  scene.add(splatMesh);
}
``` -/
def toggleDebugMode (s : AppState) : AppState :=
  if !s.splatsLoaded then s
  else if s.debugMode then
    let s1 := { s with splatInScene := false }
    let s2 := if !s1.envCreated then
        { s1 with envCreated := true, envInScene := true } else s1
    { s2 with envVisible := true }
  else
    let s1 := if s.envCreated then { s with envVisible := false } else s
    { s1 with splatInScene := true }

/-- The KeyM branch of the keydown handler:
`debugMode = !debugMode; toggleDebugMode();` —
note the flag flips before the loaded guard runs. -/
def pressKeyM (s : AppState) : AppState :=
  toggleDebugMode { s with debugMode := !s.debugMode }

/-- The `onLoad` callback of the `SplatMesh`:
`splatsLoaded = true; if (environment) environment.visible = false; scene.add(splatMesh);`
(the `environment.visible = false` line is `environment.visible = false`
behind the `if (environment)` guard; dropping `loadingElement` UI). -/
def onSplatLoad (s : AppState) : AppState :=
  let s1 := { s with splatsLoaded := true }
  let s2 := if s1.envCreated then { s1 with envVisible := false } else s1
  { s2 with splatInScene := true }

/-- Events that drive the toggle state machine. -/
inductive AppEvent
  | keyM
  | load
deriving DecidableEq, Repr, Fintype

/-- One event step. -/
def stepEvent (s : AppState) : AppEvent → AppState
  | .keyM => pressKeyM s
  | .load => onSplatLoad s

/-- Run a sequence of events. -/
def runEvents (s : AppState) (evs : List AppEvent) : AppState :=
  evs.foldl stepEvent s

/-- The splat mesh is present in the active scene graph: attached to the
scene and visible (its `visible` flag is never cleared). -/
def splatActive (s : AppState) : Bool := s.splatInScene

/-- The wireframe mesh is present in the active scene graph: attached to
the scene and its `visible` flag set. -/
def envActive (s : AppState) : Bool := s.envInScene && s.envVisible

/-- Exactly one of {splat mesh, wireframe mesh} is present in the active
scene graph. -/
def exactlyOneActive (s : AppState) : Bool := xor (splatActive s) (envActive s)

/-- Machine invariant: before load nothing is attached and no wireframe
exists; the wireframe is attached iff it has been created; after load
exactly one of the two meshes is active. -/
def InvB (s : AppState) : Bool :=
  (s.splatsLoaded || (!s.splatInScene && !s.envCreated))
    && (s.envInScene == s.envCreated)
    && (!s.splatsLoaded || exactlyOneActive s)

/-! ### Helper lemmas about the driver -/

lemma runSteps_eq (n : ℕ) (a : ℚ) :
    runSteps n a = a - n * FIXED_TIME_STEP := by
  induction n generalizing a with
  | zero => simp [runSteps]
  | succ k ih =>
    rw [runSteps, ih]
    push_cast
    ring

lemma FIXED_TIME_STEP_pos : (0 : ℚ) < FIXED_TIME_STEP := by
  norm_num [FIXED_TIME_STEP]

lemma animateFrame_ticks_eq (acc e : ℚ) :
    (animateFrame acc e).ticks
      = (min ⌊(acc + frameTimeOf e) / FIXED_TIME_STEP⌋ (MAX_SUBSTEPS : ℤ)).toNat := rfl

lemma animateFrame_acc_eq (acc e : ℚ) :
    (animateFrame acc e).acc
      = (acc + frameTimeOf e) - (animateFrame acc e).ticks * FIXED_TIME_STEP := by
  simp only [animateFrame, runSteps_eq]

lemma frameTimeOf_nonneg (e : ℚ) (he : 0 ≤ e) : 0 ≤ frameTimeOf e :=
  le_min he (by norm_num)

lemma floor_div_nonneg (acc e : ℚ) (hacc : 0 ≤ acc) (he : 0 ≤ e) :
    0 ≤ ⌊(acc + frameTimeOf e) / FIXED_TIME_STEP⌋ :=
  Int.floor_nonneg.mpr
    (div_nonneg (add_nonneg hacc (frameTimeOf_nonneg e he)) FIXED_TIME_STEP_pos.le)

lemma animateFrame_ticks_cast (acc e : ℚ) (hacc : 0 ≤ acc) (he : 0 ≤ e) :
    ((animateFrame acc e).ticks : ℤ)
      = min ⌊(acc + frameTimeOf e) / FIXED_TIME_STEP⌋ (MAX_SUBSTEPS : ℤ) := by
  rw [animateFrame_ticks_eq]
  exact Int.toNat_of_nonneg
    (le_min (floor_div_nonneg acc e hacc he) (by norm_num [MAX_SUBSTEPS]))

lemma animateFrame_acc_nonneg (acc e : ℚ) (hacc : 0 ≤ acc) (he : 0 ≤ e) :
    0 ≤ (animateFrame acc e).acc := by
  rw [animateFrame_acc_eq]
  have hfl := floor_div_nonneg acc e hacc he
  have hticks : ((animateFrame acc e).ticks : ℚ)
      ≤ ⌊(acc + frameTimeOf e) / FIXED_TIME_STEP⌋ := by
    have h := animateFrame_ticks_cast acc e hacc he
    exact_mod_cast (h ▸ min_le_left _ _ : ((animateFrame acc e).ticks : ℤ) ≤ _)
  have hfle : (⌊(acc + frameTimeOf e) / FIXED_TIME_STEP⌋ : ℚ)
      ≤ (acc + frameTimeOf e) / FIXED_TIME_STEP := Int.floor_le _
  have : ((animateFrame acc e).ticks : ℚ) * FIXED_TIME_STEP ≤ acc + frameTimeOf e := by
    calc ((animateFrame acc e).ticks : ℚ) * FIXED_TIME_STEP
        ≤ ((acc + frameTimeOf e) / FIXED_TIME_STEP) * FIXED_TIME_STEP := by
          exact mul_le_mul_of_nonneg_right (hticks.trans hfle) FIXED_TIME_STEP_pos.le
      _ = acc + frameTimeOf e := div_mul_cancel₀ _ FIXED_TIME_STEP_pos.ne'
  linarith

lemma animateFrame_acc_lt (acc e : ℚ) (hacc : 0 ≤ acc) (he : 0 ≤ e)
    (hcap : (animateFrame acc e).ticks < MAX_SUBSTEPS) :
    (animateFrame acc e).acc < FIXED_TIME_STEP := by
  rw [animateFrame_acc_eq]
  have hfl := floor_div_nonneg acc e hacc he
  have hcast := animateFrame_ticks_cast acc e hacc he
  -- below the cap, the step count is exactly the floor
  have hmin : min ⌊(acc + frameTimeOf e) / FIXED_TIME_STEP⌋ (MAX_SUBSTEPS : ℤ)
      = ⌊(acc + frameTimeOf e) / FIXED_TIME_STEP⌋ := by
    rcases le_or_lt ((MAX_SUBSTEPS : ℤ)) ⌊(acc + frameTimeOf e) / FIXED_TIME_STEP⌋ with h | h
    · exfalso
      have : ((animateFrame acc e).ticks : ℤ) = (MAX_SUBSTEPS : ℤ) := by
        rw [hcast, min_eq_right h]
      omega
    · exact min_eq_left h.le
  have hticks : ((animateFrame acc e).ticks : ℚ)
      = ⌊(acc + frameTimeOf e) / FIXED_TIME_STEP⌋ := by
    exact_mod_cast hmin ▸ hcast
  rw [hticks]
  have hlt : (acc + frameTimeOf e) / FIXED_TIME_STEP
      < ⌊(acc + frameTimeOf e) / FIXED_TIME_STEP⌋ + 1 := Int.lt_floor_add_one _
  have := (div_lt_iff₀ FIXED_TIME_STEP_pos).mp hlt
  linarith

lemma foldl_animate_nonneg (ts : List ℚ) (a : ℚ) (ha : 0 ≤ a)
    (hts : ∀ t ∈ ts, 0 ≤ t) :
    0 ≤ ts.foldl (fun acc el => (animateFrame acc el).acc) a := by
  induction ts generalizing a with
  | nil => exact ha
  | cons t rest ih =>
    simp only [List.foldl_cons]
    exact ih _ (animateFrame_acc_nonneg a t ha (hts t (by simp)))
      (fun x hx => hts x (by simp [hx]))

lemma runFrames_nonneg (ts : List ℚ) (hts : ∀ t ∈ ts, 0 ≤ t) :
    0 ≤ runFrames ts :=
  foldl_animate_nonneg ts 0 le_rfl hts

/-- Core algebra of the wall slide: removing the (positive or not)
projection of `(vx, vz)` on `(nx, nz)` never increases the squared
horizontal magnitude. -/
lemma slide_no_amplify (vx vz nx nz : ℚ) (hs : 0 < nx * nx + nz * nz) :
    (vx - (vx * nx + vz * nz) / (nx * nx + nz * nz) * nx)
        * (vx - (vx * nx + vz * nz) / (nx * nx + nz * nz) * nx)
      + (vz - (vx * nx + vz * nz) / (nx * nx + nz * nz) * nz)
        * (vz - (vx * nx + vz * nz) / (nx * nx + nz * nz) * nz)
      ≤ vx * vx + vz * vz := by
  have hne : nx * nx + nz * nz ≠ 0 := hs.ne'
  have hkey : (vx - (vx * nx + vz * nz) / (nx * nx + nz * nz) * nx)
        * (vx - (vx * nx + vz * nz) / (nx * nx + nz * nz) * nx)
      + (vz - (vx * nx + vz * nz) / (nx * nx + nz * nz) * nz)
        * (vz - (vx * nx + vz * nz) / (nx * nx + nz * nz) * nz)
      = vx * vx + vz * vz
        - (vx * nx + vz * nz) * (vx * nx + vz * nz) / (nx * nx + nz * nz) := by
    field_simp
    ring
  have hnn : 0 ≤ (vx * nx + vz * nz) * (vx * nx + vz * nz) / (nx * nx + nz * nz) :=
    div_nonneg (mul_self_nonneg _) hs.le
  linarith

/-! ### Helper lemmas about the toggle state machine -/

lemma InvB_step : ∀ (s : AppState) (e : AppEvent),
    InvB s = true → InvB (stepEvent s e) = true := by decide

lemma InvB_runEvents (evs : List AppEvent) (s : AppState) (h : InvB s = true) :
    InvB (runEvents s evs) = true := by
  induction evs generalizing s with
  | nil => exact h
  | cons e rest ih =>
    simpa [runEvents, List.foldl_cons] using ih (stepEvent s e) (InvB_step s e h)

lemma InvB_exactlyOne : ∀ s : AppState,
    InvB s = true → s.splatsLoaded = true → exactlyOneActive s = true := by decide

/-! ### Claims -/

/-- C1, counterexample: after a single frame with elapsed time 0.1 s the
substep cap binds (5 of the 6 implied ticks run) and the accumulator ends
at exactly `1/60 = FIXED_TIME_STEP`, violating
`accumulator < FIXED_TIME_STEP`. -/
theorem accumulator_invariant_counterexample :
    ¬ ((animateFrame 0 (1/10)).acc < FIXED_TIME_STEP) := by
  norm_num [animateFrame, frameTimeOf, FIXED_TIME_STEP, MAX_SUBSTEPS, runSteps]

/-- C1, amended: for any sequence of nonnegative per-frame elapsed times
the accumulator is nonnegative after every frame, and it is below
`FIXED_TIME_STEP` after every frame in which fewer than `MAX_SUBSTEPS`
ticks ran (when the substep cap binds, a full fixed step or more may be
retained). -/
theorem accumulator_bounds (ts : List ℚ) (e : ℚ)
    (hts : ∀ t ∈ ts, 0 ≤ t) (he : 0 ≤ e) :
    0 ≤ runFrames ts
    ∧ 0 ≤ (animateFrame (runFrames ts) e).acc
    ∧ ((animateFrame (runFrames ts) e).ticks < MAX_SUBSTEPS
        → (animateFrame (runFrames ts) e).acc < FIXED_TIME_STEP) :=
  ⟨runFrames_nonneg ts hts,
   animateFrame_acc_nonneg _ e (runFrames_nonneg ts hts) he,
   animateFrame_acc_lt _ e (runFrames_nonneg ts hts) he⟩

/-- Witness for the amended C1 at the concrete frame sequence `[1/60]`
followed by a frame of 1/100 s. -/
theorem accumulator_bounds_witness :
    0 ≤ runFrames [1/60]
    ∧ 0 ≤ (animateFrame (runFrames [1/60]) (1/100)).acc
    ∧ ((animateFrame (runFrames [1/60]) (1/100)).ticks < MAX_SUBSTEPS
        → (animateFrame (runFrames [1/60]) (1/100)).acc < FIXED_TIME_STEP) :=
  accumulator_bounds [1/60] (1/100)
    (by intro t ht; rw [List.mem_singleton] at ht; rw [ht]; norm_num)
    (by norm_num)

/-- C2: each frame runs
`min(floor(accumulator / FIXED_TIME_STEP), MAX_SUBSTEPS)` physics ticks
(so when the accumulated time implies more than `MAX_SUBSTEPS` ticks,
exactly `MAX_SUBSTEPS` run), each tick subtracts exactly
`FIXED_TIME_STEP`, and the remainder is carried in the accumulator. -/
theorem animateFrame_step_count (acc e : ℚ) (hacc : 0 ≤ acc) (he : 0 ≤ e) :
    ((animateFrame acc e).ticks : ℤ)
      = min ⌊(acc + frameTimeOf e) / FIXED_TIME_STEP⌋ (MAX_SUBSTEPS : ℤ)
    ∧ (animateFrame acc e).acc
      = (acc + frameTimeOf e) - (animateFrame acc e).ticks * FIXED_TIME_STEP :=
  ⟨animateFrame_ticks_cast acc e hacc he, animateFrame_acc_eq acc e⟩

/-- Witness for C2 at accumulator 0 and elapsed time 0.1 s, where the cap
binds. -/
theorem animateFrame_step_count_witness :
    ((animateFrame 0 (1/10)).ticks : ℤ)
      = min ⌊((0 : ℚ) + frameTimeOf (1/10)) / FIXED_TIME_STEP⌋ (MAX_SUBSTEPS : ℤ)
    ∧ (animateFrame 0 (1/10)).acc
      = ((0 : ℚ) + frameTimeOf (1/10))
          - (animateFrame 0 (1/10)).ticks * FIXED_TIME_STEP :=
  animateFrame_step_count 0 (1/10) (by norm_num) (by norm_num)

/-- C10: the per-frame elapsed time is clamped from above at 0.1 s but
not from below (`frameTimeOf (-1) = -1`); with nonnegative measured
elapsed times the accumulator stays nonnegative after every frame, while
a single frame of elapsed time −1 s from accumulator 0 drives the
accumulator negative. -/
theorem frameTime_clamp_and_acc_sign (acc e : ℚ) (hacc : 0 ≤ acc) (he : 0 ≤ e) :
    frameTimeOf e ≤ 1/10
    ∧ frameTimeOf (-1) = -1
    ∧ 0 ≤ (animateFrame acc e).acc
    ∧ (animateFrame 0 (-1)).acc < 0 :=
  ⟨min_le_right _ _,
   by norm_num [frameTimeOf],
   animateFrame_acc_nonneg acc e hacc he,
   by norm_num [animateFrame, frameTimeOf, FIXED_TIME_STEP, MAX_SUBSTEPS, runSteps]⟩

/-- Witness for C10 at accumulator 0 and elapsed time 0. -/
theorem frameTime_clamp_and_acc_sign_witness :
    frameTimeOf 0 ≤ 1/10
    ∧ frameTimeOf (-1) = -1
    ∧ 0 ≤ (animateFrame 0 0).acc
    ∧ (animateFrame 0 (-1)).acc < 0 :=
  frameTime_clamp_and_acc_sign 0 0 le_rfl le_rfl

/-- C3: for every desired velocity and every forward ray-cast outcome,
the wall-slide adjuster never amplifies the horizontal speed (stated on
squared magnitudes and, equivalently, on the magnitudes themselves) and
passes the vertical component through unchanged. -/
theorem adjustVelocityForWalls_no_amplify (v : Vec3) (rayNormal : Option Vec3) :
    (adjustVelocityForWalls v rayNormal).horizSq ≤ v.horizSq
    ∧ Real.sqrt ((adjustVelocityForWalls v rayNormal).horizSq : ℝ)
        ≤ Real.sqrt ((v.horizSq : ℝ))
    ∧ (adjustVelocityForWalls v rayNormal).y = v.y := by
  have key : (adjustVelocityForWalls v rayNormal).horizSq ≤ v.horizSq
      ∧ (adjustVelocityForWalls v rayNormal).y = v.y := by
    cases rayNormal with
    | none =>
      simp only [adjustVelocityForWalls]
      split_ifs <;> exact ⟨le_rfl, rfl⟩
    | some normal =>
      simp only [adjustVelocityForWalls]
      split_ifs with hA hB hC hD
      · exact ⟨le_rfl, rfl⟩
      · exact ⟨le_rfl, rfl⟩
      · have hspos : (0 : ℚ)
            < normal.x * normal.x + normal.z * normal.z := by
          simp only [Vec3.lengthSq, mul_zero, add_zero] at hC
          linarith
        constructor
        · simp only [Vec3.horizSq, Vec3.sub, Vec3.smul, Vec3.dot,
            Vec3.lengthSq, mul_zero, add_zero, zero_mul, sub_zero]
          exact slide_no_amplify v.x v.z normal.x normal.z hspos
        · simp [Vec3.sub, Vec3.smul]
      · exact ⟨le_rfl, rfl⟩
      · exact ⟨le_rfl, rfl⟩
  exact ⟨key.1, Real.sqrt_le_sqrt (by exact_mod_cast key.1), key.2⟩

/-- C4: the ground probe reports grounded iff a hit exists with distance
at most `half-height + radius + 0.12`, surface normal vertical component
above 0.3, and vertical velocity at most 0.6; the downward cast's maximum
distance is `half-height + radius + 0.6`; no hit means not grounded. -/
theorem isPlayerGrounded_spec (toi : ℚ) (n : Vec3) (vy : ℚ) :
    groundRayMaxDist = PLAYER_HALF_HEIGHT + PLAYER_RADIUS + 6/10
    ∧ (isPlayerGrounded (some ⟨toi, some n⟩) vy = true
        ↔ (toi ≤ PLAYER_HALF_HEIGHT + PLAYER_RADIUS + 12/100
            ∧ n.y > 3/10 ∧ vy ≤ 6/10))
    ∧ isPlayerGrounded none vy = false := by
  refine ⟨rfl, ?_, rfl⟩
  simp [isPlayerGrounded, footOffset, and_assoc]

/-- C9: a hit with no surface normal is treated as having vertical normal
component 1.0, so the steep-wall rejection always passes and the player
can be classified as grounded on such a hit (e.g. at distance 0.42 with
vertical velocity 0). -/
theorem isPlayerGrounded_missing_normal (toi vy : ℚ) :
    (isPlayerGrounded (some ⟨toi, none⟩) vy = true
      ↔ (toi ≤ PLAYER_HALF_HEIGHT + PLAYER_RADIUS + 12/100 ∧ vy ≤ 6/10))
    ∧ isPlayerGrounded (some ⟨42/100, none⟩) 0 = true := by
  constructor
  · norm_num [isPlayerGrounded, footOffset]
  · norm_num [isPlayerGrounded, footOffset, PLAYER_HALF_HEIGHT, PLAYER_RADIUS,
      GLOBAL_SCALE]

/-- C5: on a jump-key press, if the ground probe reports not-grounded the
body's velocity is left unchanged; if it reports grounded, the vertical
velocity is set to the configured jump speed and the horizontal
components are preserved exactly. -/
theorem handleSpaceKey_spec (hit : Option RayHit) (v : Vec3) :
    (isPlayerGrounded hit v.y = false → handleSpaceKey hit v = v)
    ∧ (isPlayerGrounded hit v.y = true
        → handleSpaceKey hit v = ⟨v.x, PLAYER_JUMP_SPEED, v.z⟩) := by
  constructor <;> intro h <;> simp [handleSpaceKey, h]

/-- Witness for C5: an airborne press (no hit) leaves the velocity as it
was; a grounded press (flat hit at distance 0) sets the vertical velocity
to the jump speed. -/
theorem handleSpaceKey_spec_witness :
    handleSpaceKey none ⟨1, 2, 3⟩ = ⟨1, 2, 3⟩
    ∧ handleSpaceKey (some ⟨0, some ⟨0, 1, 0⟩⟩) ⟨1, 0, 3⟩
        = ⟨1, PLAYER_JUMP_SPEED, 3⟩ :=
  ⟨(handleSpaceKey_spec none ⟨1, 2, 3⟩).1 rfl,
   (handleSpaceKey_spec (some ⟨0, some ⟨0, 1, 0⟩⟩) ⟨1, 0, 3⟩).2
     (by norm_num [isPlayerGrounded, footOffset, PLAYER_HALF_HEIGHT,
       PLAYER_RADIUS, GLOBAL_SCALE])⟩

/-- C6: the camera synchronizer sets the camera position to exactly
`(x, y - (half-height + radius) + eye-height, z)` and leaves the camera
orientation untouched. -/
theorem syncCameraToBody_spec (cam : Camera) (p : Vec3) :
    (syncCameraToBody cam p).position
      = ⟨p.x, p.y - (PLAYER_HALF_HEIGHT + PLAYER_RADIUS) + PLAYER_EYE_HEIGHT, p.z⟩
    ∧ (syncCameraToBody cam p).rotation = cam.rotation :=
  ⟨rfl, rfl⟩

/-- C7: after any sequence of debug-toggle presses and the load event,
once the splat assets have loaded exactly one of {splat mesh, wireframe
mesh} is present in the active scene graph. -/
theorem debugToggle_exclusivity (evs : List AppEvent)
    (h : (runEvents initState evs).splatsLoaded = true) :
    exactlyOneActive (runEvents initState evs) = true :=
  InvB_exactlyOne _ (InvB_runEvents evs initState (by decide)) h

/-- Witness for C7 on the event sequence load, toggle, toggle. -/
theorem debugToggle_exclusivity_witness :
    (runEvents initState [AppEvent.load, AppEvent.keyM, AppEvent.keyM]).splatsLoaded
        = true
    ∧ exactlyOneActive
        (runEvents initState [AppEvent.load, AppEvent.keyM, AppEvent.keyM]) = true :=
  ⟨by decide,
   debugToggle_exclusivity [AppEvent.load, AppEvent.keyM, AppEvent.keyM] (by decide)⟩

/-- C8, counterexample: pressing the debug-toggle key before load is not
a no-op — from the initial state it flips `debugMode` to `true`, so the
program state changes. -/
theorem pressKeyM_before_load_changes_state :
    (runEvents initState [AppEvent.keyM]).debugMode = true
    ∧ initState.debugMode = false
    ∧ runEvents initState [AppEvent.keyM] ≠ initState := by decide

/-- C8, amended: pressing the debug-toggle key before the splat assets
have loaded flips the `debugMode` flag (the flag is toggled before the
loaded guard runs) but changes nothing else: the loaded flag and the
whole scene state (splat attachment, wireframe existence, attachment and
visibility) are unchanged. -/
theorem pressKeyM_before_load_scene_unchanged (s : AppState)
    (h : s.splatsLoaded = false) :
    (pressKeyM s).debugMode = !s.debugMode
    ∧ (pressKeyM s).splatsLoaded = s.splatsLoaded
    ∧ (pressKeyM s).splatInScene = s.splatInScene
    ∧ (pressKeyM s).envCreated = s.envCreated
    ∧ (pressKeyM s).envInScene = s.envInScene
    ∧ (pressKeyM s).envVisible = s.envVisible := by
  revert h
  revert s
  decide

/-- Witness for the amended C8 at the initial (not yet loaded) state. -/
theorem pressKeyM_before_load_witness :
    (pressKeyM initState).debugMode = !initState.debugMode
    ∧ (pressKeyM initState).splatsLoaded = initState.splatsLoaded
    ∧ (pressKeyM initState).splatInScene = initState.splatInScene
    ∧ (pressKeyM initState).envCreated = initState.envCreated
    ∧ (pressKeyM initState).envInScene = initState.envInScene
    ∧ (pressKeyM initState).envVisible = initState.envVisible :=
  pressKeyM_before_load_scene_unchanged initState (by decide)

end Rome
